import Mathlib

/-!
Verification of the scion-coredns DNS-over-QUIC server and its forwarding
proxy, modelled shallowly from the Go sources: the QUIC ingress stream
handler (`handleQUICStream` in the `dnsserver` package, present in both the
`ServerQUIC` and `ServerSQUIC` variants with identical control flow), the
2-byte big-endian framing codec (`addPrefix` and the handler's inverse
validation), the upstream relay `Proxy.Connect`, and the adaptive dial
timeout (`limitTimeout` / `averageTimeout`).
-/

namespace SCoreDNS

/-- Bytes as they appear on the wire. -/
abbrev Byte := Fin 256

/-- `const minDNSPacketSize = 12 + 5` from the server source. -/
def minDNSPacketSize : Nat := 12 + 5

/-- EDNS(0) option code of the forbidden edns-tcp-keepalive option
(`dns.EDNS0TCPKEEPALIVE` = 11 in the dns library). -/
def EDNS0TCPKEEPALIVE : Nat := 11

/-- `binary.BigEndian.Uint16(b[:2])`: the 2-byte big-endian prefix of a
byte buffer (the handler only evaluates this once the buffer is known to
hold at least `minDNSPacketSize` bytes, so the defaults are never hit on
the guarded path). -/
def prefix16 (b : List Byte) : Nat := 256 * (b.getD 0 0).val + (b.getD 1 0).val

/-- `addPrefix` from the server source: prepend the 2-byte big-endian
length `uint16(len(b))`.  `binary.BigEndian.PutUint16` stores the
truncated length `len(b) mod 2^16`, high byte first:
high byte `= len(b) / 256 % 256`, low byte `= len(b) % 256`. -/
def addPrefix (b : List Byte) : List Byte :=
  ⟨b.length / 256 % 256, Nat.mod_lt _ (by decide)⟩ ::
  ⟨b.length % 256, Nat.mod_lt _ (by decide)⟩ :: b

/-- The unframing validation performed by `handleQUICStream` on the bytes
read from a stream: require at least `minDNSPacketSize` bytes, require the
declared 2-byte length to equal the number of bytes read minus 2, and on
success hand the payload `b[2:]` to the DNS codec. -/
def unframe (s : List Byte) : Option (List Byte) :=
  if s.length < minDNSPacketSize then none
  else if prefix16 s ≠ s.length - 2 then none
  else some (s.drop 2)

example : unframe (addPrefix (List.replicate 15 (0 : Byte))) =
    some (List.replicate 15 0) := by decide
example : unframe (addPrefix ([] : List Byte)) = none := by decide

-- sanity checks on the arithmetic model of Go integer division
example : Int.tdiv (-7) 2 = -3 := by decide
example : Int.tdiv 30 4 = 7 := by decide
example : ∀ m n : Nat, Int.tdiv (m : Int) (n : Int) = ((m / n : Nat) : Int) :=
  fun _ _ => rfl
example (x : Nat) (h : x ≤ 65535) : 256 * (x / 256 % 256) + x % 256 = x := by omega
example (d : Nat) (h : 4 ≤ d) : 1 ≤ d / 4 := by omega

/-- The fields of a decoded `dns.Msg` that `handleQUICStream` inspects:
whether the message carries an EDNS(0) OPT record (`msg.IsEdns0() != nil`)
and, if so, the option codes of that record's options. -/
structure DNSMsg where
  hasEdns : Bool
  ednsOptions : List Nat
deriving DecidableEq

/-- Outcome of one run of `handleQUICStream` on one stream. -/
inductive StreamOutcome
  | ignoredTooShort
  /-- the `panic(fmt.Sprintf("message size mismatch: ..."))` branch -/
  | panicSizeMismatch
  | invalidContent
  /-- `dw.Msg == nil`: the chain produced no response, stream closed -/
  | closedNoResponse
  | responded
  /-- the `panic("stream write failure!")` branch -/
  | panicWriteFailure
deriving DecidableEq

/-- The externally observable effects of one `handleQUICStream` run. -/
structure StreamEffects where
  outcome : StreamOutcome
  /-- `session.CloseWithError(0, "")` was called on the owning session -/
  sessionAborted : Bool
  /-- `s.ServeDNS(ctx, dw, msg)` was invoked for this exchange -/
  chainInvoked : Bool
  /-- `stream.Write(addPrefix(buf))` was invoked for this exchange -/
  writeAttempted : Bool
deriving DecidableEq

/-- Inputs to one `handleQUICStream` run.  The DNS codec (`msg.Unpack`),
the plugin chain (`s.ServeDNS` together with `dw.Msg.Pack`) and the QUIC
stream are external collaborators, so their results are inputs of the
model: `decoded` is the result of `msg.Unpack(b[2:n])`, `chainResp` is the
packed `dw.Msg` left by the chain (`none` when `dw.Msg == nil`), and
`writeN`/`writeErr` are the two results of `stream.Write`. -/
structure StreamInput where
  readBytes : List Byte
  decoded : Option DNSMsg
  chainResp : Option (List Byte)
  writeN : Nat
  writeErr : Bool
deriving DecidableEq

/-- Shallow embedding of `handleQUICStream` (identical control flow in the
`ServerQUIC` and `ServerSQUIC` variants): read once, drop short reads
silently, `panic` when the 2-byte prefix does not equal bytes-read minus 2,
drop undecodable payloads, close the session when the decoded message
carries the edns-tcp-keepalive option — and then, without returning,
invoke the DNS chain, and write the framed response if the chain produced
one, panicking when the write errors with `n != len(buf)`. -/
def handleQUICStream (inp : StreamInput) : StreamEffects :=
  let n := inp.readBytes.length
  if n < minDNSPacketSize then ⟨.ignoredTooShort, false, false, false⟩
  else if prefix16 inp.readBytes ≠ n - 2 then ⟨.panicSizeMismatch, false, false, false⟩
  else
    match inp.decoded with
    | none => ⟨.invalidContent, false, false, false⟩
    | some msg =>
      let aborted := msg.hasEdns && decide (EDNS0TCPKEEPALIVE ∈ msg.ednsOptions)
      match inp.chainResp with
      | none => ⟨.closedNoResponse, aborted, true, false⟩
      | some buf =>
        if inp.writeErr && decide (inp.writeN ≠ buf.length)
        then ⟨.panicWriteFailure, aborted, true, true⟩
        else ⟨.responded, aborted, true, true⟩

/-! ## The forwarding proxy: `Proxy.Connect` and the adaptive dial timeout -/

/-- `limitTimeout(currentAvg, minValue, maxValue)` from `connect.go`:
the timeout used for the next dial.  Durations are `int64` nanoseconds;
`maxValue / 2` is Go integer division (truncation toward zero). -/
def limitTimeout (rt minValue maxValue : Int) : Int :=
  if rt < minValue then minValue
  else if rt < Int.tdiv maxValue 2 then 2 * rt
  else maxValue

/-- `averageTimeout(currentAvg, observedDuration, weight)` from
`connect.go`: fold one observation into the moving average,
`avg += (observed - avg) / weight` with Go (truncated) division. -/
def averageTimeout (avg observed weight : Int) : Int :=
  avg + Int.tdiv (observed - avg) weight

/-- `const cumulativeAvgWeight = 4` from `connect.go`. -/
def cumulativeAvgWeight : Int := 4

/-- The average dial time after `n` observations of the constant latency
`L`, starting from the zero value of `t.avgDialTime`. -/
def avgDialSeq (L : Int) : Nat → Int
  | 0 => 0
  | n + 1 => averageTimeout (avgDialSeq L n) L cumulativeAvgWeight

/-- Outcome of the upstream-address analysis in `Proxy.Connect`
(lines 94–110): either `pan.ParseUDPAddr(p.Addr())` succeeds (a SCION
address), or it fails and `url.Parse(p.addr)` succeeds with some scheme
(possibly the empty string, e.g. for a scheme-less host such as
`8.8.8.8`), or `url.Parse` itself errors (e.g. for `8.8.8.8:53`, whose
first path segment contains a colon). -/
inductive AddrParse
  | scion
  | url (scheme : String)
  | urlErr
deriving DecidableEq

/-- Shallow embedding of the protocol-selection prologue of
`Proxy.Connect`: `ForceTCP` wins, else `PreferUDP`, else the client's own
protocol; then a non-SCION upstream address replaces this default with the
URL-parsed scheme when parsing succeeds, and with `"udp"` when parsing
errors. -/
def selectProto (forceTCP preferUDP : Bool) (clientProto : String)
    (addr : AddrParse) : String :=
  let proto := if forceTCP then "tcp" else if preferUDP then "udp" else clientProto
  match addr with
  | .scion => proto
  | .url s => s
  | .urlErr => "udp"

/-- A DNS message as `Proxy.Connect` sees it: its 16-bit ID and an
abstract payload distinguishing messages. -/
structure Msg where
  id : Nat
  payload : Nat
deriving DecidableEq

/-- Kind of a write error: the `io.EOF` sentinel or any other error. -/
inductive WErr
  | eof
  | other
deriving DecidableEq

/-- Kind of a read error.  `io.EOF` is a plain sentinel error and does not
implement `net.Error`; `net` stands for errors that do implement
`net.Error` (timeouts, network failures); `other` for the remaining
non-network errors (e.g. malformed-packet decode errors). -/
inductive RErrKind
  | eof
  | net
  | other
deriving DecidableEq

/-- One result of `pc.c.ReadMsg()`: either a successfully decoded message,
or an error of kind `k` together with the (possibly `nil`) partial message
the library returned alongside it. -/
inductive ReadEvent
  | ok (m : Msg)
  | fail (k : RErrKind) (ret : Option Msg)
deriving DecidableEq

/-- The error component of `Proxy.Connect`'s result. -/
inductive CErr
  | noErr
  /-- the dial error propagated verbatim -/
  | dialE
  /-- the distinguished `ErrCachedClosed` sentinel -/
  | cachedClosed
  | writeE (w : WErr)
  | readE (k : RErrKind)
deriving DecidableEq

/-- Exit of the read-and-match loop of `Proxy.Connect`. -/
inductive LoopExit
  | matched (m : Msg)
  | failed (e : CErr) (ret : Option Msg)
deriving DecidableEq

/-- Shallow embedding of the `for { ret, err = pc.c.ReadMsg() ... }` loop
of `Proxy.Connect`.  A `fail` event with a non-`net.Error` kind on `"udp"`
continues the loop; any other failure closes the connection, turning
`io.EOF` on a cached connection into `ErrCachedClosed` (returning a `nil`
message) and otherwise returning the partial message with the client's ID
restored.  A successfully read message terminates the loop only when its
ID equals the locally generated query ID; on that exit the client's ID is
restored.  An exhausted event list stands for the anchored read deadline
expiring: `ReadMsg` then returns a `nil` message with a timeout error,
which implements `net.Error`. -/
def readLoop (proto : String) (genId origId : Nat) (cached : Bool) :
    List ReadEvent → LoopExit
  | [] => .failed (.readE .net) none
  | .ok m :: rest =>
    if m.id = genId then .matched { m with id := origId }
    else readLoop proto genId origId cached rest
  | .fail k ret :: rest =>
    if proto = "udp" ∧ ¬k = RErrKind.net then readLoop proto genId origId cached rest
    else if k = RErrKind.eof ∧ cached = true then .failed .cachedClosed none
    else .failed (.readE k) (ret.map fun m => { m with id := origId })

/-- Inputs of one `Proxy.Connect` exchange (after protocol selection):
the client request's ID on entry, the fresh `dns.Id()` value, the resolved
protocol, the transport results (`Dial` failure or success with the
`cached` flag, `WriteMsg` result, the sequence of `ReadMsg` results). -/
structure ConnectInput where
  reqId0 : Nat
  genId : Nat
  proto : String
  dialErr : Bool
  cached : Bool
  writeErr : Option WErr
  reads : List ReadEvent
deriving DecidableEq

/-- The externally observable result of one `Proxy.Connect` call. -/
structure ConnectOut where
  resp : Option Msg
  err : CErr
  /-- `pc.c.Close()` was called -/
  connClosed : Bool
  /-- `p.transport.Yield(pc)` was called -/
  connYielded : Bool
  /-- `state.Req.Id` as the caller sees it after the call returns -/
  finalReqId : Nat
deriving DecidableEq

/-- Shallow embedding of `Proxy.Connect` after protocol selection.  On a
dial error the request is returned untouched.  Otherwise the original ID
is recorded, `state.Req.Id` is overwritten with the fresh `dns.Id()`, and
a deferred restore puts the original ID back on every later exit path
(Go's `defer` runs on each `return`), which the `finalReqId` of each
branch mirrors.  A write error closes the connection and yields
`ErrCachedClosed` exactly for `io.EOF` on a cached connection; otherwise
the read-and-match loop runs, and only its `matched` exit yields the
connection back to the pool. -/
def Connect (i : ConnectInput) : ConnectOut :=
  if i.dialErr then ⟨none, .dialE, false, false, i.reqId0⟩
  else
    match i.writeErr with
    | some w =>
      if w = WErr.eof ∧ i.cached = true then ⟨none, .cachedClosed, true, false, i.reqId0⟩
      else ⟨none, .writeE w, true, false, i.reqId0⟩
    | none =>
      match readLoop i.proto i.genId i.reqId0 i.cached i.reads with
      | .matched m => ⟨some m, .noErr, false, true, i.reqId0⟩
      | .failed e ret => ⟨ret, e, true, false, i.reqId0⟩

/-! ## Claim C1: the forbidden edns-tcp-keepalive option -/

/-- A well-formed 19-byte framed query: prefix `17 = 19 - 2`. -/
def c1bytes : List Byte := 0 :: 17 :: List.replicate 17 0

/-- A stream whose decoded query carries the edns-tcp-keepalive option,
while the chain produces a response and the write succeeds. -/
def c1in : StreamInput :=
  ⟨c1bytes, some ⟨true, [EDNS0TCPKEEPALIVE]⟩, some (List.replicate 5 0), 7, false⟩

/-- C1 counterexample: on a decoded query carrying the edns-tcp-keepalive
option, the handler does close the owning session, but — contrary to the
claim — it still invokes the DNS chain for that exchange and still writes
a response to the stream. -/
theorem keepalive_claim_fails_at_c1in :
    c1in.decoded = some ⟨true, [EDNS0TCPKEEPALIVE]⟩ ∧
    (handleQUICStream c1in).sessionAborted = true ∧
    (handleQUICStream c1in).chainInvoked = true ∧
    (handleQUICStream c1in).writeAttempted = true := by decide

/-- C1 amended: whenever an incoming stream passes the size and framing
checks and decodes to a message carrying the edns-tcp-keepalive EDNS(0)
option, the handler closes the owning QUIC session (so no further streams
are accepted on it) — but it does not return: the DNS chain is still
invoked for that exchange, and if the chain produces a response the
handler still attempts to write it to the stream. -/
theorem keepalive_closes_session_but_exchange_continues
    (inp : StreamInput) (msg : DNSMsg)
    (hn : minDNSPacketSize ≤ inp.readBytes.length)
    (hp : prefix16 inp.readBytes = inp.readBytes.length - 2)
    (hd : inp.decoded = some msg)
    (he : msg.hasEdns = true)
    (ho : EDNS0TCPKEEPALIVE ∈ msg.ednsOptions) :
    (handleQUICStream inp).sessionAborted = true ∧
    (handleQUICStream inp).chainInvoked = true ∧
    ((handleQUICStream inp).writeAttempted = true ↔ inp.chainResp ≠ none) := by
  have h1 : ¬inp.readBytes.length < minDNSPacketSize := by omega
  unfold handleQUICStream
  rw [if_neg h1, if_neg (by simp [hp]), hd]
  rcases hc : inp.chainResp with _ | buf
  · simp [hc, he, ho]
  · simp [hc, he, ho, apply_ite]

/-- Witness for the amended C1 at the concrete input `c1in`. -/
theorem keepalive_closes_session_but_exchange_continues_witness :
    (handleQUICStream c1in).sessionAborted = true ∧
    (handleQUICStream c1in).chainInvoked = true ∧
    ((handleQUICStream c1in).writeAttempted = true ↔ c1in.chainResp ≠ none) :=
  keepalive_closes_session_but_exchange_continues c1in ⟨true, [EDNS0TCPKEEPALIVE]⟩
    (by decide) (by decide) (by decide) (by decide) (by decide)

/-! ## Claim C2: framing-length mismatch -/

/-- A 20-byte read whose prefix declares 100 instead of `20 - 2 = 18`. -/
def c2in : StreamInput := ⟨0 :: 100 :: List.replicate 18 0, none, none, 0, false⟩

/-- C2: a stream read of 20 bytes whose 2-byte prefix declares 100 drives
the handler into its `panic("message size mismatch ...")` branch — an
unrecovered panic in the stream goroutine, which crashes the whole
process, instead of aborting only this exchange. -/
theorem framing_mismatch_panics :
    handleQUICStream c2in = ⟨.panicSizeMismatch, false, false, false⟩ := by decide

/-! ## Claim C3: response-write failure -/

/-- A valid exchange whose response write fails having written 0 bytes. -/
def c3in : StreamInput := ⟨c1bytes, some ⟨false, []⟩, some (List.replicate 5 0), 0, true⟩

/-- C3: a failed response write that wrote 0 of the 5 payload bytes drives
the handler into its `panic("stream write failure!")` branch — an
unrecovered panic that crashes the whole process, instead of a logged
exchange-local failure. -/
theorem write_failure_panics :
    handleQUICStream c3in = ⟨.panicWriteFailure, false, true, true⟩ := by decide

/-! ## Claim C4: framing round trip -/

/-- C4 counterexample: the round trip fails on the empty payload — the
framed message has only 2 bytes, below `minDNSPacketSize`, so the
handler's unframing rejects it. -/
theorem frame_roundtrip_fails_on_empty :
    unframe (addPrefix ([] : List Byte)) = none ∧
    ¬unframe (addPrefix ([] : List Byte)) = some [] := by decide

/-- C4 amended: the framing round trip holds for every payload long
enough to pass the minimum-size check (at least `minDNSPacketSize - 2 =
15` bytes) and short enough for its length to survive the 16-bit header
(at most 65535 bytes): unframing the framed payload succeeds and returns
exactly the payload. -/
theorem frame_roundtrip (P : List Byte)
    (h1 : 15 ≤ P.length) (h2 : P.length ≤ 65535) :
    unframe (addPrefix P) = some P := by
  have hlen : (addPrefix P).length = P.length + 2 := by simp [addPrefix]
  have hp : prefix16 (addPrefix P) = P.length := by
    simp only [prefix16, addPrefix, List.getD_cons_zero, List.getD_cons_succ]
    omega
  unfold unframe
  rw [hlen, hp, if_neg (by unfold minDNSPacketSize; omega), if_neg (by omega)]
  simp [addPrefix]

/-- Witness for the amended C4 at a concrete 15-byte payload. -/
theorem frame_roundtrip_witness :
    unframe (addPrefix (List.replicate 15 (0 : Byte))) =
      some (List.replicate 15 (0 : Byte)) :=
  frame_roundtrip (List.replicate 15 0) (by decide) (by decide)

/-! ## Helper lemmas about the read-and-match loop -/

/-- The message carried by a loop exit: the accepted reply, or the partial
message returned next to a read error. -/
def exitResp : LoopExit → Option Msg
  | .matched m => some m
  | .failed _ r => r

/-- Any message carried out of the read loop has the client's original ID. -/
theorem readLoop_restores_id (proto : String) (g o : Nat) (c : Bool)
    (evs : List ReadEvent) :
    ∀ m, exitResp (readLoop proto g o c evs) = some m → m.id = o := by
  induction evs with
  | nil => intro m h; simp [readLoop, exitResp] at h
  | cons ev rest ih =>
    intro m h
    cases ev with
    | ok m' =>
      rw [readLoop] at h
      by_cases hm : m'.id = g
      · rw [if_pos hm] at h
        simp [exitResp] at h
        simp [← h]
      · rw [if_neg hm] at h
        exact ih m h
    | fail k ret =>
      rw [readLoop] at h
      by_cases h1 : proto = "udp" ∧ ¬k = RErrKind.net
      · rw [if_pos h1] at h
        exact ih m h
      · rw [if_neg h1] at h
        by_cases h2 : k = RErrKind.eof ∧ c = true
        · rw [if_pos h2] at h
          simp [exitResp] at h
        · rw [if_neg h2] at h
          cases ret with
          | none => simp [exitResp] at h
          | some r =>
            simp [exitResp] at h
            simp [← h]

/-- Successfully read replies whose ID differs from the generated query ID
are skipped by the loop without any other effect. -/
theorem readLoop_skips_mismatched (proto : String) (g o : Nat) (c : Bool)
    (pre : List Msg) (evs : List ReadEvent) (hpre : ∀ x ∈ pre, x.id ≠ g) :
    readLoop proto g o c (pre.map ReadEvent.ok ++ evs) =
      readLoop proto g o c evs := by
  induction pre with
  | nil => simp
  | cons x xs ih =>
    have hx : ¬x.id = g := hpre x (by simp)
    simp only [List.map_cons, List.cons_append, readLoop, if_neg hx]
    exact ih fun y hy => hpre y (by simp [hy])

/-! ## Claim C5: ID restoration on every returned response -/

/-- C5: whenever `Connect` returns a response message — with or without an
accompanying error — that message's ID is the client's original request ID
recorded before the upstream exchange. -/
theorem id_restoration (i : ConnectInput) (m : Msg)
    (h : (Connect i).resp = some m) : m.id = i.reqId0 := by
  unfold Connect at h
  by_cases hd : i.dialErr = true
  · rw [if_pos hd] at h; simp at h
  · rw [if_neg hd] at h
    rcases hw : i.writeErr with _ | w
    · rw [hw] at h
      rcases hr : readLoop i.proto i.genId i.reqId0 i.cached i.reads with m' | ⟨e, ret⟩ <;>
        rw [hr] at h <;> simp at h
      · exact readLoop_restores_id i.proto i.genId i.reqId0 i.cached i.reads m
          (by rw [hr]; simp [exitResp, h])
      · exact readLoop_restores_id i.proto i.genId i.reqId0 i.cached i.reads m
          (by rw [hr]; simpa [exitResp] using h)
    · rw [hw] at h
      simp [apply_ite] at h

/-- Input for the C5 witness: a fresh connection whose single read is the
matching upstream reply. -/
def i5 : ConnectInput := ⟨7, 9, "tcp", false, false, none, [.ok ⟨9, 42⟩]⟩

/-- Witness for C5 at the concrete call `i5`. -/
theorem id_restoration_witness :
    (Connect i5).resp = some ⟨7, 42⟩ ∧ (⟨7, 42⟩ : Msg).id = i5.reqId0 :=
  ⟨by decide, id_restoration i5 ⟨7, 42⟩ (by decide)⟩

/-! ## Claim C6: spoof rejection -/

/-- C6: when the upstream connection yields `N ≥ 1` successfully read
replies with mismatched IDs followed by one reply with the matching ID,
`Connect` discards the mismatched replies, returns the matching reply
(with the client's ID restored) without error, leaves the connection open
and yields it back to the pool. -/
theorem spoof_rejection (i : ConnectInput) (pre : List Msg) (m : Msg)
    (hd : i.dialErr = false) (hw : i.writeErr = none)
    (hr : i.reads = pre.map ReadEvent.ok ++ [ReadEvent.ok m])
    (_hn : pre ≠ [])
    (hpre : ∀ x ∈ pre, x.id ≠ i.genId)
    (hm : m.id = i.genId) :
    Connect i =
      ⟨some { m with id := i.reqId0 }, .noErr, false, true, i.reqId0⟩ := by
  unfold Connect
  rw [if_neg (by simp [hd]), hw, hr,
    readLoop_skips_mismatched i.proto i.genId i.reqId0 i.cached pre _ hpre]
  simp only [readLoop, if_pos hm]

/-- Input for the C6 witness: two spoofed replies, then the real one. -/
def i6 : ConnectInput :=
  ⟨3, 8, "udp", false, true, none, [.ok ⟨5, 1⟩, .ok ⟨6, 2⟩, .ok ⟨8, 77⟩]⟩

/-- Witness for C6 at the concrete call `i6`. -/
theorem spoof_rejection_witness :
    Connect i6 = ⟨some ⟨3, 77⟩, .noErr, false, true, 3⟩ :=
  spoof_rejection i6 [⟨5, 1⟩, ⟨6, 2⟩] ⟨8, 77⟩ (by decide) (by decide)
    (by decide) (by decide) (by decide) (by decide)

/-! ## Claim C7: stale-connection signaling -/

/-- A cached udp connection whose read fails with `io.EOF`. -/
def c7in : ConnectInput := ⟨1, 2, "udp", false, true, none, [.fail .eof none]⟩

/-- C7 counterexample: on a cached `"udp"` connection whose read fails
with `io.EOF`, `Connect` does not return `ErrCachedClosed`: `io.EOF` does
not implement `net.Error`, so the udp read loop continues past it and the
call ends with the generic deadline (network) error instead. -/
theorem stale_signaling_fails_on_udp_eof :
    c7in.cached = true ∧
    (Connect c7in).err = CErr.readE RErrKind.net ∧
    ¬(Connect c7in).err = CErr.cachedClosed := by decide

/-- C7 amended: when the write fails with `io.EOF` (any protocol), and
when a read fails with `io.EOF` on a non-`"udp"` protocol, `Connect`
returns `ErrCachedClosed` exactly when the connection came from the cache
and the generic error otherwise, and in both cases closes the connection
and does not yield it.  (On `"udp"`, a read `io.EOF` — not a `net.Error` —
instead continues the read loop.) -/
theorem stale_connection_signaling (i : ConnectInput) (hd : i.dialErr = false) :
    (i.writeErr = some WErr.eof →
      ((Connect i).err = CErr.cachedClosed ↔ i.cached = true) ∧
      (Connect i).connClosed = true ∧ (Connect i).connYielded = false) ∧
    (i.writeErr = none → ¬i.proto = "udp" →
      ∀ r rest, i.reads = ReadEvent.fail RErrKind.eof r :: rest →
        ((Connect i).err = CErr.cachedClosed ↔ i.cached = true) ∧
        (Connect i).connClosed = true ∧ (Connect i).connYielded = false) := by
  constructor
  · intro hw
    unfold Connect
    rw [if_neg (by simp [hd]), hw]
    cases hcc : i.cached
    · simp [hcc]
    · simp [hcc]
  · intro hw hp r rest hr
    unfold Connect
    rw [if_neg (by simp [hd]), hw, hr]
    simp only [readLoop]
    rw [if_neg (by simp [hp])]
    cases hcc : i.cached
    · simp [hcc]
    · simp [hcc]

/-- Input for the C7 witness, write half: cached connection, write EOF. -/
def i7w : ConnectInput := ⟨1, 2, "tcp", false, true, some .eof, []⟩

/-- Input for the C7 witness, read half: fresh tcp connection, read EOF. -/
def i7r : ConnectInput := ⟨1, 2, "tcp", false, false, none, [.fail .eof none]⟩

/-- Witness for the amended C7 at the concrete calls `i7w` and `i7r`. -/
theorem stale_connection_signaling_witness :
    (((Connect i7w).err = CErr.cachedClosed ↔ i7w.cached = true) ∧
      (Connect i7w).connClosed = true ∧ (Connect i7w).connYielded = false) ∧
    (((Connect i7r).err = CErr.cachedClosed ↔ i7r.cached = true) ∧
      (Connect i7r).connClosed = true ∧ (Connect i7r).connYielded = false) :=
  ⟨(stale_connection_signaling i7w (by decide)).1 (by decide),
   (stale_connection_signaling i7r (by decide)).2 (by decide) (by decide)
     none [] (by decide)⟩

/-! ## Claim C9: protocol selection -/

/-- C9 counterexample: with `ForceTCP` set and a non-SCION upstream
address that parses as a URL with an empty scheme (e.g. `8.8.8.8`), the
resolved protocol is the empty string — the default is overwritten even
though no explicit scheme indicator is present, contradicting the claim
that the default (here `"tcp"`) would be kept. -/
theorem protocol_selection_fails_on_schemeless_url :
    selectProto true false "udp" (AddrParse.url "") = "" ∧
    ¬selectProto true false "udp" (AddrParse.url "") = "tcp" := by decide

/-- C9 amended: the default protocol is `"tcp"` under `ForceTCP`, else
`"udp"` under `PreferUDP`, else the client's protocol, and it is kept only
for SCION upstream addresses; for every other address the default is
replaced by the URL-parsed scheme — even when that scheme is empty — when
parsing succeeds, and by `"udp"` when URL parsing errors. -/
theorem protocol_selection (f p : Bool) (c s : String) :
    (f = true → selectProto f p c AddrParse.scion = "tcp") ∧
    (f = false → p = true → selectProto f p c AddrParse.scion = "udp") ∧
    (f = false → p = false → selectProto f p c AddrParse.scion = c) ∧
    selectProto f p c (AddrParse.url s) = s ∧
    selectProto f p c AddrParse.urlErr = "udp" := by
  cases f <;> cases p <;> simp [selectProto]

/-- Witness for the amended C9 at concrete flags and address results. -/
theorem protocol_selection_witness :
    selectProto true false "quic" AddrParse.scion = "tcp" ∧
    selectProto false false "quic" AddrParse.scion = "quic" :=
  ⟨(protocol_selection true false "quic" "s").1 rfl,
   (protocol_selection false false "quic" "s").2.2.1 rfl rfl⟩

/-! ## Claim C10: the caller's request ID is restored on every exit path -/

/-- C10: on every exit path of `Connect` — dial failure, write failure,
read failure, and success — the caller's request message is left with its
original ID: the temporary upstream ID is never visible after return. -/
theorem request_id_restored_on_all_paths (i : ConnectInput) :
    (Connect i).finalReqId = i.reqId0 := by
  unfold Connect
  by_cases hd : i.dialErr = true
  · rw [if_pos hd]
  · rw [if_neg hd]
    rcases hw : i.writeErr with _ | w
    · rcases hr : readLoop i.proto i.genId i.reqId0 i.cached i.reads with m | ⟨e, ret⟩ <;>
        rfl
    · simp [apply_ite]

/-! ## Claim C8: the adaptive dial timeout -/

/-- Go's `int64` division on nonnegative operands agrees with `Nat`
division (`Int.tdiv` truncates toward zero, as Go does). -/
theorem tdiv_ofNat (m n : Nat) :
    Int.tdiv (m : Int) (n : Int) = ((m / n : Nat) : Int) := rfl

theorem tdiv_ofNat_two (m : Nat) :
    Int.tdiv (m : Int) 2 = ((m / 2 : Nat) : Int) := rfl

theorem tdiv_ofNat_four (m : Nat) :
    Int.tdiv (m : Int) 4 = ((m / 4 : Nat) : Int) := rfl

/-- `Nat` counterpart of one averaging step for a constant observation
`L` folded into an average `a ≤ L`. -/
def avgStepN (L a : Nat) : Nat := a + (L - a) / 4

/-- `Nat` counterpart of `avgDialSeq`. -/
def avgSeqN (L : Nat) : Nat → Nat
  | 0 => 0
  | n + 1 => avgStepN L (avgSeqN L n)

theorem avgSeqN_le (L : Nat) : ∀ n, avgSeqN L n ≤ L := by
  intro n
  induction n with
  | zero => simp [avgSeqN]
  | succ n ih =>
    simp only [avgSeqN, avgStepN]
    omega

/-- The `Int`-valued source sequence agrees with its `Nat` counterpart. -/
theorem avgDialSeq_eq (L : Nat) : ∀ n, avgDialSeq (L : Int) n = (avgSeqN L n : Int) := by
  intro n
  induction n with
  | zero => rfl
  | succ n ih =>
    have hle := avgSeqN_le L n
    show averageTimeout (avgDialSeq (L : Int) n) (L : Int) cumulativeAvgWeight = _
    rw [ih]
    unfold averageTimeout cumulativeAvgWeight
    rw [show ((L : Int) - (avgSeqN L n : Int)) = ((L - avgSeqN L n : Nat) : Int) by omega,
      show ((4 : Int) = ((4 : Nat) : Int)) from rfl, tdiv_ofNat]
    show _ = ((avgStepN L (avgSeqN L n) : Nat) : Int)
    unfold avgStepN
    omega

theorem avgSeqN_band_or_ge (L : Nat) : ∀ n, L ≤ avgSeqN L n + 3 ∨ n ≤ avgSeqN L n := by
  intro n
  induction n with
  | zero => right; simp [avgSeqN]
  | succ n ih =>
    rcases ih with h | h
    · left; simp only [avgSeqN, avgStepN]; omega
    · by_cases hb : L ≤ avgSeqN L n + 3
      · left; simp only [avgSeqN, avgStepN]; omega
      · right; simp only [avgSeqN, avgStepN]; omega

/-- After `L` observations the average has climbed to within 3 of `L`
(the fold adds `(L - avg) / 4`, which is 0 exactly on that final band). -/
theorem avgSeqN_band_at (L : Nat) : L ≤ avgSeqN L L + 3 := by
  rcases avgSeqN_band_or_ge L L with h | h
  · exact h
  · have := avgSeqN_le L L
    omega

theorem avgSeqN_stable (L : Nat) : ∀ k, avgSeqN L (L + k) = avgSeqN L L := by
  intro k
  induction k with
  | zero => rfl
  | succ k ih =>
    have hband : L ≤ avgSeqN L (L + k) + 3 := by rw [ih]; exact avgSeqN_band_at L
    show avgStepN L (avgSeqN L (L + k)) = _
    rw [show avgStepN L (avgSeqN L (L + k)) = avgSeqN L (L + k) by unfold avgStepN; omega]
    exact ih

/-- C8 counterexample: from a zero average, a single observation equal to
the ceiling (floor 1, ceiling 30) folds to an average of `30 / 4 = 7` and
yields the next timeout `2 * 7 = 14`, not the ceiling 30 that the claim
demands for an observation "at or above the ceiling". -/
theorem single_ceiling_observation_fails :
    limitTimeout (averageTimeout 0 30 cumulativeAvgWeight) 1 30 = 14 ∧
    ¬limitTimeout (averageTimeout 0 30 cumulativeAvgWeight) 1 30 = 30 := by decide

/-- C8 amended: the next dial timeout is the floor below the floor, `2 ×
avg` below half the ceiling, and the ceiling otherwise; each observation
is folded in as `avg += (observed - avg) / weight` with weight 4; for a
constant observed latency `L` with `floor + 3 ≤ L` and `2 L + 2 ≤
ceiling`, the computed timeout stabilizes at a value in `[2 L - 6, 2 L]`
(approximately `2 × L`, the slack coming from the truncated division),
within `[floor, ceiling]`; and a single observation of at least twice the
ceiling, folded into a zero average, yields the ceiling (a single
observation merely at the ceiling does not — see the counterexample). -/
theorem adaptive_dial_timeout (minV maxV L X : Nat)
    (h1 : minV + 3 ≤ L) (h2 : 2 * L + 2 ≤ maxV) (hX : 2 * maxV ≤ X) :
    (∀ rt : Int, rt < (minV : Int) →
      limitTimeout rt (minV : Int) (maxV : Int) = (minV : Int)) ∧
    (∀ rt : Int, (minV : Int) ≤ rt → rt < Int.tdiv (maxV : Int) 2 →
      limitTimeout rt (minV : Int) (maxV : Int) = 2 * rt) ∧
    (∀ rt : Int, Int.tdiv (maxV : Int) 2 ≤ rt →
      limitTimeout rt (minV : Int) (maxV : Int) = (maxV : Int)) ∧
    (∀ avg : Int, averageTimeout avg (L : Int) cumulativeAvgWeight =
      avg + Int.tdiv ((L : Int) - avg) 4) ∧
    (∃ N : Nat, ∀ n, N ≤ n →
      avgDialSeq (L : Int) n = avgDialSeq (L : Int) N ∧
      limitTimeout (avgDialSeq (L : Int) n) (minV : Int) (maxV : Int) =
        2 * avgDialSeq (L : Int) N ∧
      2 * (L : Int) - 6 ≤ 2 * avgDialSeq (L : Int) N ∧
      2 * avgDialSeq (L : Int) N ≤ 2 * (L : Int) ∧
      (minV : Int) ≤ 2 * avgDialSeq (L : Int) N ∧
      2 * avgDialSeq (L : Int) N ≤ (maxV : Int)) ∧
    limitTimeout (averageTimeout 0 (X : Int) cumulativeAvgWeight)
      (minV : Int) (maxV : Int) = (maxV : Int) := by
  refine ⟨?_, ?_, ?_, ?_, ?_, ?_⟩
  · intro rt h
    unfold limitTimeout
    rw [if_pos h]
  · intro rt ha hb
    unfold limitTimeout
    rw [if_neg (by omega), if_pos hb]
  · intro rt h
    rw [tdiv_ofNat_two] at h
    unfold limitTimeout
    rw [tdiv_ofNat_two, if_neg (by omega), if_neg (by omega)]
  · intro avg
    rfl
  · refine ⟨L, fun n hn => ?_⟩
    obtain ⟨k, rfl⟩ := Nat.exists_eq_add_of_le hn
    have hA1 : avgSeqN L L ≤ L := avgSeqN_le L L
    have hA2 : L ≤ avgSeqN L L + 3 := avgSeqN_band_at L
    rw [avgDialSeq_eq L (L + k), avgDialSeq_eq L L, avgSeqN_stable L k]
    refine ⟨rfl, ?_, by omega, by omega, by omega, by omega⟩
    unfold limitTimeout
    rw [tdiv_ofNat_two, if_neg (by omega), if_pos (by omega)]
  · unfold averageTimeout cumulativeAvgWeight
    rw [show ((X : Int) - 0) = ((X : Nat) : Int) by omega,
      show ((4 : Int) = ((4 : Nat) : Int)) from rfl, tdiv_ofNat]
    unfold limitTimeout
    rw [tdiv_ofNat_two, if_neg (by omega), if_neg (by omega)]

/-- Witness for the amended C8 at floor 1, ceiling 10, latency 4,
one-shot observation 20. -/
theorem adaptive_dial_timeout_witness :
    (1 : Nat) + 3 ≤ 4 ∧
    limitTimeout (averageTimeout 0 ((20 : Nat) : Int) cumulativeAvgWeight)
      ((1 : Nat) : Int) ((10 : Nat) : Int) = ((10 : Nat) : Int) :=
  ⟨by decide,
   (adaptive_dial_timeout 1 10 4 20 (by decide) (by decide) (by decide)).2.2.2.2.2⟩

end SCoreDNS
